import Mathlib

/-!
# Verification of `dataBaseCheck.py` (`read_authenticator_db`)

Shallow embedding of the script `dataBaseCheck.py`, which opens an SQLite
database, lists its tables via `SELECT name FROM sqlite_master WHERE
type='table';`, and for each table prints its name, its rows
(`SELECT * FROM <name>;`) and its column names (`PRAGMA table_info(<name>);`),
closing the connection at the end; any `sqlite3.Error` is caught and printed.

The store (SQLite) is modelled as a record of operations threading an explicit
state, so that read-only-ness and failure behaviour are facts about the
embedding of the store semantics, and the script's control flow is one `run`
function over that interface.
-/

set_option autoImplicit false

namespace DBCheck

/-- The single-quote character, `Char.ofNat 39`. -/
def squoteChar : Char := Char.ofNat 39

/-- The single-quote character as a string. -/
def sq : String := String.singleton squoteChar

/-- The backslash character as a string. -/
def bsStr : String := String.singleton (Char.ofNat 92)

/-- A value stored in an SQLite cell, restricted to the storage classes the
claims exercise (integers, text, NULL).  Python prints a row as the `repr` of
a tuple of such values. -/
inductive SQLiteValue where
  | intV (n : Int)
  | textV (s : String)
  | nullV
deriving DecidableEq

/-- Escape of one character inside Python's single-quoted string `repr`:
backslash, quote, newline, carriage return and tab get a backslash escape,
everything else is kept as is. -/
def escChar (c : Char) : String :=
  if c = Char.ofNat 92 then bsStr ++ bsStr
  else if c = squoteChar then bsStr ++ sq
  else if c = Char.ofNat 10 then bsStr ++ "n"
  else if c = Char.ofNat 13 then bsStr ++ "r"
  else if c = Char.ofNat 9 then bsStr ++ "t"
  else String.singleton c

/-- Python `repr` of a string, modelled as always single-quoted with the
escapes of `escChar`.  (CPython switches to double quotes when the string
contains a quote but no double quote; that stylistic difference does not
affect any claim, which only use quote-free strings, and never changes the
line structure of the output.) -/
def pyStrRepr (s : String) : String :=
  sq ++ String.join (s.toList.map escChar) ++ sq

/-- Python `repr` of one cell value: decimal for integers, quoted for text,
`None` for NULL. -/
def pyRepr : SQLiteValue → String
  | SQLiteValue.intV n => toString n
  | SQLiteValue.textV s => pyStrRepr s
  | SQLiteValue.nullV => "None"

/-- Python `print(row)` text for a fetched row, which is a tuple:
`()`, `(v,)` for a 1-tuple, `(v1, v2, ...)` otherwise. -/
def pyTuple (row : List SQLiteValue) : String :=
  match row with
  | [] => "()"
  | [v] => "(" ++ pyRepr v ++ ",)"
  | _ => "(" ++ String.intercalate ", " (row.map pyRepr) ++ ")"

/-- Python `str` of a list of strings, as printed for the column names:
`['a', 'b']`. -/
def pyStrList (xs : List String) : String :=
  "[" ++ String.intercalate ", " (xs.map pyStrRepr) ++ "]"

/-- One line of the script's console output.  Keeping lines symbolic (with
`render` giving the exact text) lets claims count occurrences of the line
kinds directly. -/
inductive Line where
  /-- the empty line produced by the leading newline of `f"\nTable: ..."` -/
  | blank
  /-- `Table: <name>`, from `print(f"\nTable: {table_name[0]}")` -/
  | tableHeader (name : String)
  /-- `Columns: [...]`, from `print("Columns:", columns)` -/
  | columnsLine (cols : List String)
  /-- `Rows:` -/
  | rowsHeader
  /-- one fetched row, from `print(row)` -/
  | rowLine (row : List SQLiteValue)
  /-- `No tables found in the database.` -/
  | noTables
  /-- `Error reading database: <msg>`, from the `except` clause -/
  | errorLine (msg : String)
deriving DecidableEq

/-- Exact text of each output line. -/
def render : Line → String
  | Line.blank => ""
  | Line.tableHeader n => "Table: " ++ n
  | Line.columnsLine cols => "Columns: " ++ pyStrList cols
  | Line.rowsHeader => "Rows:"
  | Line.rowLine r => pyTuple r
  | Line.noTables => "No tables found in the database."
  | Line.errorLine m => "Error reading database: " ++ m

/-- Is this line the `except`-clause error line? -/
def isErrorLine : Line → Bool
  | Line.errorLine _ => true
  | _ => false

/-- Is this line a `Table: <name>` header? -/
def isTableHeader : Line → Bool
  | Line.tableHeader _ => true
  | _ => false

/-- Is this line a `Columns: [...]` line? -/
def isColumnsLine : Line → Bool
  | Line.columnsLine _ => true
  | _ => false

/-- The table name of a `Table:` header line, if any. -/
def headerName : Line → Option String
  | Line.tableHeader n => some n
  | _ => none

/-- An exception raised by an operation during the run.  `sqliteError` stands
for `sqlite3.Error` and its subclasses — the only class the script's
`except sqlite3.Error` clause matches; `otherExc` stands for every other
exception type (e.g. `sqlite3.Warning`, which does not derive from
`sqlite3.Error`). -/
inductive Exc where
  | sqliteError (msg : String)
  | otherExc (msg : String)
deriving DecidableEq

/-- The store interface the script uses, one field per database call in the
source, threading a store state `σ`:
`connect` for `sqlite3.connect(db_path)`,
`masterQuery` for `SELECT name FROM sqlite_master WHERE type='table';`
(already projected to the name column, as `table_name[0]` does),
`selectAll` for `SELECT * FROM <name>;`, and
`tableInfo` for `PRAGMA table_info(<name>);` projected to the column-name
column (`col[1]`). -/
structure Store (σ : Type) where
  connect : σ → Except Exc Unit × σ
  masterQuery : σ → Except Exc (List String) × σ
  selectAll : String → σ → Except Exc (List (List SQLiteValue)) × σ
  tableInfo : String → σ → Except Exc (List String) × σ

/-- How the call to `read_authenticator_db` terminates: a plain return, or an
exception propagating out of the function uncaught. -/
inductive Outcome where
  | normal
  | raised (msg : String)
deriving DecidableEq

/-- Observable result of one call of `read_authenticator_db`:
the printed lines, whether `conn.close()` was executed, the message of the
`sqlite3.Error` caught by the `except` clause (if any), the first exception
raised by a store operation (if any; instrumentation), and the outcome. -/
structure RunResult where
  output : List Line
  connClosed : Bool
  caught : Option String
  faulted : Option Exc
  outcome : Outcome
deriving DecidableEq

/-- The `for table_name in tables:` loop, lines 21-34 of the source: for each
table print the header (whose `f"\nTable: ..."` yields a blank line and the
`Table:` line), run `SELECT *`, run `PRAGMA table_info`, then print the
columns line, the `Rows:` header and each row.  Returns the lines printed,
the first exception raised (the loop stops there, as an exception aborts the
`try` block), and the final store state. -/
def processTables {σ : Type} (st : Store σ) :
    List String → σ → List Line × Option Exc × σ
  | [], s => ([], none, s)
  | t :: ts, s =>
    match st.selectAll t s with
    | (Except.error e, s1) => ([Line.blank, Line.tableHeader t], some e, s1)
    | (Except.ok rows, s1) =>
      match st.tableInfo t s1 with
      | (Except.error e, s2) => ([Line.blank, Line.tableHeader t], some e, s2)
      | (Except.ok cols, s2) =>
        let block := [Line.blank, Line.tableHeader t,
          Line.columnsLine cols, Line.rowsHeader] ++ rows.map Line.rowLine
        match processTables st ts s2 with
        | (rest, err, s3) => (block ++ rest, err, s3)

/-- The `try`/`except` boundary, lines 7 and 39-40: with no exception the
lines stand and `connClosed` is as the `try` block left it; a
`sqlite3.Error` is caught, one error line is appended and the function
returns normally (the `conn.close()` at line 37 was skipped); any other
exception propagates out uncaught, unreported. -/
def afterTry (lines : List Line) (closed : Bool) : Option Exc → RunResult
  | none => ⟨lines, closed, none, none, Outcome.normal⟩
  | some (Exc.sqliteError m) =>
      ⟨lines ++ [Line.errorLine m], false, some m, some (Exc.sqliteError m),
        Outcome.normal⟩
  | some (Exc.otherExc m) =>
      ⟨lines, false, none, some (Exc.otherExc m), Outcome.raised m⟩

/-- `read_authenticator_db`, lines 6-40 of the source: connect, fetch the
table names, early-return with an informational line when there are none
(without closing the connection — the `return` at line 18 skips line 37),
otherwise process every table and close the connection; the whole body sits
in the `try`/`except sqlite3.Error` boundary of `afterTry`. -/
def run {σ : Type} (st : Store σ) (s0 : σ) : RunResult × σ :=
  match st.connect s0 with
  | (Except.error e, s1) => (afterTry [] false (some e), s1)
  | (Except.ok _, s1) =>
    match st.masterQuery s1 with
    | (Except.error e, s2) => (afterTry [] false (some e), s2)
    | (Except.ok tables, s2) =>
      match tables with
      | [] => (afterTry [Line.noTables] false none, s2)
      | _ :: _ =>
        match processTables st tables s2 with
        | (lines, err, s3) => (afterTry lines true err, s3)

/-! ## SQLite semantics of the store -/

/-- Contents of one user table: its ordered column names and its rows, in the
order an unfiltered `SELECT *` returns them. -/
structure TableData where
  columns : List String
  rows : List (List SQLiteValue)
deriving DecidableEq

/-- A database file: the rows of the `sqlite_master` catalog, as pairs
`(type, name)` (types are `table`, `index`, `view`, `trigger`; SQLite also
lists its internal tables such as `sqlite_sequence` there with type
`table`), plus the contents of each table, keyed by name. -/
structure Database where
  master : List (String × String)
  tables : List (String × TableData)
deriving DecidableEq

/-- Look up a table's contents by name. -/
def lookupTable (db : Database) (n : String) : Option TableData :=
  (db.tables.find? (fun p => p.1 == n)).map Prod.snd

/-- Result of `SELECT name FROM sqlite_master WHERE type='table';`: the
names of exactly those catalog rows whose type column is `table`. -/
def masterTables (db : Database) : List String :=
  (db.master.filter (fun e => e.1 == "table")).map Prod.snd

/-- Is `s` a plain SQL identifier (letter or underscore, then letters, digits
or underscores)?  The script interpolates the table name unquoted into
`SELECT * FROM {name};`, so a name that is not a plain identifier makes the
statement malformed and the store raise. -/
def isValidIdent (s : String) : Bool :=
  match s.toList with
  | [] => false
  | c :: cs =>
    (c.isAlpha || c = Char.ofNat 95) &&
      cs.all (fun d => d.isAlphanum || d = Char.ofNat 95)

/-- Semantics of `SELECT * FROM <n>;` on a database: the table's rows; a
`sqlite3.Error` when the interpolated name is malformed or no such table
exists.  Never mutates the database (SQLite `SELECT` is read-only). -/
def dbSelect (db : Database) (n : String) :
    Except Exc (List (List SQLiteValue)) :=
  if isValidIdent n then
    match lookupTable db n with
    | some td => Except.ok td.rows
    | none => Except.error (Exc.sqliteError ("no such table: " ++ n))
  else Except.error (Exc.sqliteError ("malformed table name: " ++ n))

/-- Semantics of `PRAGMA table_info(<n>);` projected to column names: the
table's columns, the empty list for an unknown name (the pragma yields no
rows then), an error for a malformed name.  Read-only. -/
def dbInfo (db : Database) (n : String) : Except Exc (List String) :=
  if isValidIdent n then
    Except.ok (match lookupTable db n with
      | some td => td.columns
      | none => [])
  else Except.error (Exc.sqliteError ("malformed table name: " ++ n))

/-- A fault-injection point: which store call (identified for the per-table
calls by the table name) raises. -/
inductive FaultPoint where
  | atConnect
  | atMaster
  | atSelect (name : String)
  | atInfo (name : String)
deriving DecidableEq

/-- The SQLite store over a `Database` state, with an optional injected
fault (modelling OS- or file-level failures: missing file, bad format,
corruption, permission denied) at one operation.  Every operation returns
the state unchanged: all four calls of the script are reads. -/
def sqliteStore (f : Option (FaultPoint × Exc)) : Store Database where
  connect := fun s =>
    (match f with
      | some (FaultPoint.atConnect, e) => Except.error e
      | _ => Except.ok (), s)
  masterQuery := fun s =>
    (match f with
      | some (FaultPoint.atMaster, e) => Except.error e
      | _ => Except.ok (masterTables s), s)
  selectAll := fun n s =>
    (match f with
      | some (FaultPoint.atSelect m, e) =>
        if n = m then Except.error e else dbSelect s n
      | _ => dbSelect s n, s)
  tableInfo := fun n s =>
    (match f with
      | some (FaultPoint.atInfo m, e) =>
        if n = m then Except.error e else dbInfo s n
      | _ => dbInfo s n, s)

/-- The script run against a database with no injected fault. -/
def runDb (db : Database) : RunResult :=
  (run (sqliteStore none) db).1

/-- Column names of table `t` as the store reports them. -/
def dbColumns (db : Database) (t : String) : List String :=
  match lookupTable db t with
  | some td => td.columns
  | none => []

/-- Rows of table `t` as the store reports them. -/
def dbRows (db : Database) (t : String) : List (List SQLiteValue) :=
  match lookupTable db t with
  | some td => td.rows
  | none => []

/-- The block of lines the loop prints for one successfully processed
table. -/
def tableBlock (db : Database) (t : String) : List Line :=
  [Line.blank, Line.tableHeader t, Line.columnsLine (dbColumns db t),
    Line.rowsHeader] ++ (dbRows db t).map Line.rowLine


/-! ## Example databases used by the concrete theorems -/

def emptyDb : Database := ⟨[], []⟩

def exDb : Database :=
  ⟨[("table", "t")],
   [("t", ⟨["a", "b"],
     [[SQLiteValue.intV 1, SQLiteValue.textV "x"],
      [SQLiteValue.intV 2, SQLiteValue.textV "y"]]⟩)]⟩

def seqDb : Database :=
  ⟨[("table", "sqlite_sequence"), ("table", "users"), ("index", "idx_users")],
   [("sqlite_sequence", ⟨["name", "seq"],
      [[SQLiteValue.textV "users", SQLiteValue.intV 1]]⟩),
    ("users", ⟨["id"], [[SQLiteValue.intV 1]]⟩)]⟩

def twoDb : Database :=
  ⟨[("table", "aa"), ("table", "bb")],
   [("aa", ⟨["x"], [[SQLiteValue.intV 7]]⟩), ("bb", ⟨["y"], []⟩)]⟩

/-! ## Helper lemmas -/

-- One-step equations for `processTables`, for each shape of the store's
-- answers on the head table.
lemma processTables_cons_errSel {σ : Type} (st : Store σ) {t : String}
    {ts : List String} {s s1 : σ} {e : Exc}
    (h : st.selectAll t s = (Except.error e, s1)) :
    processTables st (t :: ts) s = ([Line.blank, Line.tableHeader t], some e, s1) := by
  simp [processTables, h]

lemma processTables_cons_errInfo {σ : Type} (st : Store σ) {t : String}
    {ts : List String} {s s1 s2 : σ} {rows : List (List SQLiteValue)} {e : Exc}
    (h1 : st.selectAll t s = (Except.ok rows, s1))
    (h2 : st.tableInfo t s1 = (Except.error e, s2)) :
    processTables st (t :: ts) s = ([Line.blank, Line.tableHeader t], some e, s2) := by
  simp [processTables, h1, h2]

lemma processTables_cons_ok {σ : Type} (st : Store σ) {t : String}
    {ts : List String} {s s1 s2 : σ} {rows : List (List SQLiteValue)}
    {cols : List String}
    (h1 : st.selectAll t s = (Except.ok rows, s1))
    (h2 : st.tableInfo t s1 = (Except.ok cols, s2)) :
    processTables st (t :: ts) s =
      ([Line.blank, Line.tableHeader t, Line.columnsLine cols, Line.rowsHeader]
          ++ rows.map Line.rowLine ++ (processTables st ts s2).1,
        (processTables st ts s2).2.1, (processTables st ts s2).2.2) := by
  simp [processTables, h1, h2]

-- No line printed by the loop is the except-clause error line.
lemma processTables_no_errorLine {σ : Type} (st : Store σ) :
    ∀ (ts : List String) (s : σ) (l : Line),
      l ∈ (processTables st ts s).1 → isErrorLine l = false := by
  intro ts
  induction ts with
  | nil => intro s l hl; simp [processTables] at hl
  | cons t ts ih =>
    intro s l hl
    rcases hsel : st.selectAll t s with ⟨res, s1⟩
    cases res with
    | error e =>
      rw [processTables_cons_errSel st hsel] at hl
      simp at hl
      rcases hl with rfl | rfl <;> rfl
    | ok rows =>
      rcases hinf : st.tableInfo t s1 with ⟨res2, s2⟩
      cases res2 with
      | error e =>
        rw [processTables_cons_errInfo st hsel hinf] at hl
        simp at hl
        rcases hl with rfl | rfl <;> rfl
      | ok cols =>
        rw [processTables_cons_ok st hsel hinf] at hl
        simp at hl
        rcases hl with rfl | rfl | rfl | rfl | ⟨r, _, rfl⟩ | h
        · rfl
        · rfl
        · rfl
        · rfl
        · rfl
        · exact ih s2 l h

lemma countP_errorLine_processTables {σ : Type} (st : Store σ)
    (ts : List String) (s : σ) :
    ((processTables st ts s).1).countP isErrorLine = 0 :=
  List.countP_eq_zero.mpr (fun l hl => by
    simp [processTables_no_errorLine st ts s l hl])

-- Splitting the loop across an append, when the first part raises nothing.
lemma processTables_append {σ : Type} (st : Store σ) :
    ∀ (as bs : List String) (s : σ), (processTables st as s).2.1 = none →
      processTables st (as ++ bs) s =
        ((processTables st as s).1
            ++ (processTables st bs ((processTables st as s).2.2)).1,
          (processTables st bs ((processTables st as s).2.2)).2) := by
  intro as
  induction as with
  | nil => intro bs s _; simp [processTables]
  | cons a as ih =>
    intro bs s h
    rcases hsel : st.selectAll a s with ⟨res, s1⟩
    cases res with
    | error e =>
      rw [processTables_cons_errSel st hsel] at h
      simp at h
    | ok rows =>
      rcases hinf : st.tableInfo a s1 with ⟨res2, s2⟩
      cases res2 with
      | error e =>
        rw [processTables_cons_errInfo st hsel hinf] at h
        simp at h
      | ok cols =>
        rw [processTables_cons_ok st hsel hinf] at h
        simp only at h
        rw [List.cons_append, processTables_cons_ok st hsel hinf,
          processTables_cons_ok st hsel hinf, ih bs s2 h]
        simp [List.append_assoc]

-- The SQLite store never changes the database state, so neither does the loop
-- nor the whole run.
lemma processTables_sqlite_snd (f : Option (FaultPoint × Exc)) :
    ∀ (ts : List String) (s : Database),
      (processTables (sqliteStore f) ts s).2.2 = s := by
  intro ts
  induction ts with
  | nil => intro s; rfl
  | cons t ts ih =>
    intro s
    rcases hsel : (sqliteStore f).selectAll t s with ⟨res, s1⟩
    have h1 : s1 = s := by simpa using (congrArg Prod.snd hsel).symm
    cases res with
    | error e => rw [processTables_cons_errSel _ hsel]; simpa using h1
    | ok rows =>
      rcases hinf : (sqliteStore f).tableInfo t s1 with ⟨res2, s2⟩
      have h2 : s2 = s1 := by simpa using (congrArg Prod.snd hinf).symm
      cases res2 with
      | error e =>
        rw [processTables_cons_errInfo _ hsel hinf]
        simp [h2, h1]
      | ok cols =>
        rw [processTables_cons_ok _ hsel hinf]
        simpa [h2, h1] using ih s

lemma run_sqlite_snd (f : Option (FaultPoint × Exc)) (db : Database) :
    (run (sqliteStore f) db).2 = db := by
  rcases hc : (sqliteStore f).connect db with ⟨res, s1⟩
  have h1 : db = s1 := by simpa using congrArg Prod.snd hc
  subst h1
  cases res with
  | error e => simp [run, hc]
  | ok u =>
    rcases hm : (sqliteStore f).masterQuery db with ⟨res2, s2⟩
    have h2 : db = s2 := by simpa using congrArg Prod.snd hm
    subst h2
    cases res2 with
    | error e => simp [run, hc, hm]
    | ok tables =>
      cases tables with
      | nil => simp [run, hc, hm]
      | cons t ts =>
        simp only [run, hc, hm]
        exact processTables_sqlite_snd f (t :: ts) db

-- A successful `SELECT *` means the name was a valid identifier and the rows
-- are the table's rows; the subsequent pragma then succeeds with the table's
-- columns.
lemma dbSelect_eq_ok {db : Database} {n : String} {rows : List (List SQLiteValue)}
    (h : dbSelect db n = Except.ok rows) :
    isValidIdent n = true ∧ rows = dbRows db n := by
  cases hv : isValidIdent n with
  | false => simp [dbSelect, hv] at h
  | true =>
    refine ⟨rfl, ?_⟩
    rw [dbSelect, if_pos hv] at h
    cases hl : lookupTable db n with
    | none => rw [hl] at h; simp at h
    | some td =>
      rw [hl] at h
      simp at h
      simp [dbRows, hl, h]

lemma dbInfo_of_valid {db : Database} {n : String} (hv : isValidIdent n = true) :
    dbInfo db n = Except.ok (dbColumns db n) := by
  rw [dbInfo, if_pos hv, dbColumns]

-- With no fault injected and no error raised, the loop prints exactly the
-- per-table blocks, in catalog order.
lemma processTables_noFault :
    ∀ (ts : List String) (db : Database),
      (processTables (sqliteStore none) ts db).2.1 = none →
      (processTables (sqliteStore none) ts db).1 = (ts.map (tableBlock db)).flatten := by
  intro ts
  induction ts with
  | nil => intro db _; simp [processTables]
  | cons t ts ih =>
    intro db h
    have hsel : (sqliteStore none).selectAll t db = (dbSelect db t, db) := rfl
    cases hd : dbSelect db t with
    | error e =>
      rw [hd] at hsel
      rw [processTables_cons_errSel _ hsel] at h
      simp at h
    | ok rows =>
      rw [hd] at hsel
      obtain ⟨hv, hrows⟩ := dbSelect_eq_ok hd
      have hinf : (sqliteStore none).tableInfo t db = (Except.ok (dbColumns db t), db) := by
        show (dbInfo db t, db) = _
        rw [dbInfo_of_valid hv]
      rw [processTables_cons_ok _ hsel hinf] at h ⊢
      simp only at h
      rw [ih db h, hrows]
      simp [tableBlock]

-- Every run is an `afterTry` of loop-produced (hence error-line-free) lines.
lemma run_shape {σ : Type} (st : Store σ) (s0 : σ) :
    ∃ (lines : List Line) (closed : Bool) (err : Option Exc),
      (run st s0).1 = afterTry lines closed err ∧
        lines.countP isErrorLine = 0 := by
  rcases hc : st.connect s0 with ⟨res, s1⟩
  cases res with
  | error e => exact ⟨[], false, some e, by simp [run, hc], rfl⟩
  | ok u =>
    rcases hm : st.masterQuery s1 with ⟨res2, s2⟩
    cases res2 with
    | error e => exact ⟨[], false, some e, by simp [run, hc, hm], rfl⟩
    | ok tables =>
      cases tables with
      | nil => exact ⟨[Line.noTables], false, none, by simp [run, hc, hm], rfl⟩
      | cons t ts =>
        refine ⟨(processTables st (t :: ts) s2).1, true,
          (processTables st (t :: ts) s2).2.1, by simp [run, hc, hm], ?_⟩
        exact countP_errorLine_processTables st (t :: ts) s2

-- Instrumentation of `afterTry`, read off its three cases.
lemma afterTry_faulted (lines : List Line) (closed : Bool) :
    ∀ err : Option Exc, (afterTry lines closed err).faulted = err := by
  intro err
  rcases err with _ | e
  · rfl
  · cases e <;> rfl

-- Closed form of a fault-free-store run: the zero-table message, or the
-- `afterTry` of the loop over the catalog's tables.
lemma runDb_eq (db : Database) :
    runDb db =
      if masterTables db = [] then
        { output := [Line.noTables], connClosed := false, caught := none,
          faulted := none, outcome := Outcome.normal }
      else
        afterTry (processTables (sqliteStore none) (masterTables db) db).1 true
          (processTables (sqliteStore none) (masterTables db) db).2.1 := by
  have hc : (sqliteStore none).connect db = (Except.ok (), db) := rfl
  have hmq : (sqliteStore none).masterQuery db = (Except.ok (masterTables db), db) := rfl
  simp only [runDb, run, hc, hmq]
  cases hmt : masterTables db with
  | nil => simp [afterTry]
  | cons t ts => simp

lemma runDb_noFault_output (db : Database) (h : (runDb db).faulted = none) :
    (runDb db).output =
      if masterTables db = [] then [Line.noTables]
      else ((masterTables db).map (tableBlock db)).flatten := by
  by_cases hmt : masterTables db = []
  · rw [runDb_eq, if_pos hmt, if_pos hmt]
  · rw [runDb_eq, if_neg hmt] at h ⊢
    rw [afterTry_faulted] at h
    rw [h, if_neg hmt, processTables_noFault (masterTables db) db h]
    rfl

-- Counting and collecting over the flattened per-table blocks.
lemma countP_flatten_blocks {α : Type} (p : Line → Bool) (f : α → List Line)
    (hone : ∀ a, (f a).countP p = 1) :
    ∀ ts : List α, ((ts.map f).flatten).countP p = ts.length := by
  intro ts
  induction ts with
  | nil => rfl
  | cons a as ih => simp [List.countP_append, hone a, ih, Nat.add_comm]

lemma filterMap_flatten_blocks {α β : Type} (g : Line → Option β) (f : α → List Line)
    (e : α → β) (hone : ∀ a, (f a).filterMap g = [e a]) :
    ∀ ts : List α, ((ts.map f).flatten).filterMap g = ts.map e := by
  intro ts
  induction ts with
  | nil => rfl
  | cons a as ih => simp [List.filterMap_append, hone a, ih]

lemma tableBlock_countP_header (db : Database) (t : String) :
    (tableBlock db t).countP isTableHeader = 1 := by
  simp [tableBlock, isTableHeader, List.countP_cons, List.countP_map,
    List.countP_eq_zero]

lemma tableBlock_countP_columns (db : Database) (t : String) :
    (tableBlock db t).countP isColumnsLine = 1 := by
  simp [tableBlock, isColumnsLine, List.countP_cons, List.countP_map,
    List.countP_eq_zero]

lemma tableBlock_filterMap_header (db : Database) (t : String) :
    (tableBlock db t).filterMap headerName = [t] := by
  simp [tableBlock, headerName, List.filterMap_map]

-- Two stores whose operations agree on all listed tables drive the loop to
-- the same result.
lemma processTables_congr {σ : Type} (st st' : Store σ) :
    ∀ (ts : List String) (s : σ),
      (∀ u ∈ ts, ∀ s' : σ,
        st.selectAll u s' = st'.selectAll u s' ∧
          st.tableInfo u s' = st'.tableInfo u s') →
      processTables st ts s = processTables st' ts s := by
  intro ts
  induction ts with
  | nil => intro s _; rfl
  | cons a as ih =>
    intro s hagree
    rcases hsel : st.selectAll a s with ⟨res, s1⟩
    have hsel' : st'.selectAll a s = (res, s1) := by
      rw [← (hagree a (List.mem_cons_self a as) s).1, hsel]
    cases res with
    | error e =>
      rw [processTables_cons_errSel st hsel, processTables_cons_errSel st' hsel']
    | ok rows =>
      rcases hinf : st.tableInfo a s1 with ⟨res2, s2⟩
      have hinf' : st'.tableInfo a s1 = (res2, s2) := by
        rw [← (hagree a (List.mem_cons_self a as) s1).2, hinf]
      cases res2 with
      | error e =>
        rw [processTables_cons_errInfo st hsel hinf,
          processTables_cons_errInfo st' hsel' hinf']
      | ok cols =>
        rw [processTables_cons_ok st hsel hinf,
          processTables_cons_ok st' hsel' hinf',
          ih s2 (fun u hu s' => hagree u (List.mem_cons_of_mem a hu) s')]

-- A fault injected at the select of table `t` is invisible while processing
-- tables other than `t`.
lemma processTables_faultSelect_agree (t : String) (e : Exc)
    (ts : List String) (hts : t ∉ ts) (s : Database) :
    processTables (sqliteStore (some (FaultPoint.atSelect t, e))) ts s =
      processTables (sqliteStore none) ts s := by
  refine processTables_congr _ _ ts s (fun u hu s' => ⟨?_, rfl⟩)
  show ((if u = t then Except.error e else dbSelect s' u), s') = (dbSelect s' u, s')
  have hne : ¬u = t := by
    intro hut
    exact hts (by rw [← hut]; exact hu)
  rw [if_neg hne]

/-- C1, counterexample: on a database whose `sqlite_master` catalog holds the
internal table `sqlite_sequence` (as SQLite's catalog does whenever an
`AUTOINCREMENT` table exists), the metadata query returns — and the run
prints — that internal table, whose name starts with the reserved `sqlite_`
prefix (its first 7 characters), so the query does not exclude internal
catalog objects. -/
theorem c1_counterexample :
    "sqlite_sequence" ∈ masterTables seqDb ∧
    Line.tableHeader "sqlite_sequence" ∈ (runDb seqDb).output ∧
    "sqlite_sequence".toList.take 7 = "sqlite_".toList := by decide

/-- C1 (amended): the metadata query filters `sqlite_master` by object type
only — a name is returned exactly when the catalog lists it with type
`table` (so indexes, views and triggers are excluded, but internal
`sqlite_*` tables are not) — and on a fault-free run the printed `Table:`
headers are exactly those names, in catalog order. -/
theorem c1_tables_are_type_table_entries (db : Database)
    (h : (runDb db).faulted = none) :
    (runDb db).output.filterMap headerName = masterTables db ∧
    (∀ n : String, n ∈ masterTables db ↔ ("table", n) ∈ db.master) := by
  constructor
  · rw [runDb_noFault_output db h]
    by_cases hmt : masterTables db = []
    · simp [hmt, headerName]
    · rw [if_neg hmt,
        filterMap_flatten_blocks headerName (tableBlock db) id
          (tableBlock_filterMap_header db) (masterTables db), List.map_id]
  · intro n
    constructor
    · intro hn
      obtain ⟨e, he, hen⟩ := List.mem_map.mp hn
      obtain ⟨hem, het⟩ := List.mem_filter.mp he
      obtain ⟨e1, e2⟩ := e
      simp only [beq_iff_eq] at het
      have hen2 : e2 = n := hen
      rw [het, hen2] at hem
      exact hem
    · intro hn
      have hpred : ((("table", n) : String × String).1 == "table") = true := by simp
      exact List.mem_map.mpr ⟨("table", n), List.mem_filter.mpr ⟨hn, hpred⟩, rfl⟩

theorem c1_tables_are_type_table_entries_witness :
    (runDb seqDb).faulted = none ∧
    ((runDb seqDb).output.filterMap headerName = masterTables seqDb ∧
      (∀ n : String, n ∈ masterTables seqDb ↔ ("table", n) ∈ seqDb.master)) :=
  ⟨by decide, c1_tables_are_type_table_entries seqDb (by decide)⟩

/-- C2, counterexample: on a database with zero tables the run ends normally
with no error, but `connClosed` is `false` — the early `return` at line 18
skips the `conn.close()` at line 37, so the connection is not closed on
this normal path. -/
theorem c2_counterexample :
    (runDb emptyDb).outcome = Outcome.normal ∧
    (runDb emptyDb).faulted = none ∧
    (runDb emptyDb).output = [Line.noTables] ∧
    (runDb emptyDb).connClosed = false := by decide

/-- C2 (amended): on every non-error execution the connection is closed if
and only if at least one table was found; the zero-table early return leaves
the connection open. -/
theorem c2_closed_iff_nonempty (db : Database)
    (h : (runDb db).faulted = none) :
    (runDb db).connClosed = !(masterTables db).isEmpty := by
  by_cases hmt : masterTables db = []
  · rw [runDb_eq, if_pos hmt, hmt]
    rfl
  · rw [runDb_eq, if_neg hmt] at h ⊢
    rw [afterTry_faulted] at h
    rw [h]
    cases hmt2 : masterTables db with
    | nil => exact absurd hmt2 hmt
    | cons t ts => rfl

theorem c2_closed_iff_nonempty_witness :
    (runDb exDb).faulted = none ∧
    (runDb exDb).connClosed = !(masterTables exDb).isEmpty :=
  ⟨by decide, c2_closed_iff_nonempty exDb (by decide)⟩

/-- C3: whenever a store operation raises a `sqlite3.Error` (of any kind:
missing file, invalid format, corruption, permission, malformed table name —
all are `Exc.sqliteError`), over any store whatsoever, the run returns
normally, the error is the one caught by the single generic `except` clause,
and the output carries exactly one error line, last, whose text contains the
underlying error message. -/
theorem c3_store_errors_caught {σ : Type} (st : Store σ) (s0 : σ) (m : String)
    (h : (run st s0).1.faulted = some (Exc.sqliteError m)) :
    (run st s0).1.outcome = Outcome.normal ∧
    (run st s0).1.caught = some m ∧
    (run st s0).1.output.countP isErrorLine = 1 ∧
    ∃ pre : List Line, (run st s0).1.output = pre ++ [Line.errorLine m] ∧
      (run st s0).1.output.map render =
        pre.map render ++ ["Error reading database: " ++ m] := by
  obtain ⟨L, C, E, hshape, hL⟩ := run_shape st s0
  rw [hshape] at h ⊢
  rw [afterTry_faulted] at h
  subst h
  refine ⟨rfl, rfl, ?_, L, rfl, by simp [afterTry, render]⟩
  show (L ++ [Line.errorLine m]).countP isErrorLine = 1
  rw [List.countP_append, hL]
  rfl

theorem c3_store_errors_caught_witness :
    (run (sqliteStore (some (FaultPoint.atConnect,
        Exc.sqliteError "unable to open database file"))) emptyDb).1.faulted =
      some (Exc.sqliteError "unable to open database file") ∧
    ((run (sqliteStore (some (FaultPoint.atConnect,
        Exc.sqliteError "unable to open database file"))) emptyDb).1.outcome =
        Outcome.normal ∧
      (run (sqliteStore (some (FaultPoint.atConnect,
        Exc.sqliteError "unable to open database file"))) emptyDb).1.caught =
        some "unable to open database file" ∧
      (run (sqliteStore (some (FaultPoint.atConnect,
        Exc.sqliteError "unable to open database file"))) emptyDb).1.output.countP
          isErrorLine = 1 ∧
      ∃ pre : List Line,
        (run (sqliteStore (some (FaultPoint.atConnect,
          Exc.sqliteError "unable to open database file"))) emptyDb).1.output =
          pre ++ [Line.errorLine "unable to open database file"] ∧
        (run (sqliteStore (some (FaultPoint.atConnect,
          Exc.sqliteError "unable to open database file"))) emptyDb).1.output.map
            render =
          pre.map render ++
            ["Error reading database: " ++ "unable to open database file"]) :=
  ⟨by decide, c3_store_errors_caught _ _ _ (by decide)⟩

/-- C4: a database whose catalog lists zero tables makes the run print the
single informational line `No tables found in the database.` and nothing
else, return normally with nothing caught and nothing raised, and leave the
database untouched. -/
theorem c4_zero_tables (db : Database) (h : masterTables db = []) :
    run (sqliteStore none) db =
      ({ output := [Line.noTables], connClosed := false, caught := none,
          faulted := none, outcome := Outcome.normal }, db) ∧
    (runDb db).output.map render = ["No tables found in the database."] := by
  constructor
  · have hpair : run (sqliteStore none) db =
        (runDb db, (run (sqliteStore none) db).2) := rfl
    rw [hpair, run_sqlite_snd, runDb_eq, if_pos h]
  · rw [runDb_eq, if_pos h]
    rfl

theorem c4_zero_tables_witness :
    masterTables emptyDb = [] ∧
    (run (sqliteStore none) emptyDb =
        ({ output := [Line.noTables], connClosed := false, caught := none,
            faulted := none, outcome := Outcome.normal }, emptyDb) ∧
      (runDb emptyDb).output.map render =
        ["No tables found in the database."]) :=
  ⟨by decide, c4_zero_tables emptyDb (by decide)⟩

/-- C5: on a fault-free run the output is exactly the concatenation of the
per-table blocks (a blank line, the `Table:` header, one `Columns:` line, a
`Rows:` header, then one line per row), in catalog order — so with N tables
there are exactly N `Table:` lines, each preceded by a blank line and
followed by exactly one `Columns:` line and the table's row lines. -/
theorem c5_output_blocks (db : Database) (h : (runDb db).faulted = none) :
    (runDb db).output =
      (if masterTables db = [] then [Line.noTables]
        else ((masterTables db).map (tableBlock db)).flatten) ∧
    (runDb db).output.countP isTableHeader = (masterTables db).length ∧
    (runDb db).output.countP isColumnsLine = (masterTables db).length := by
  have hout := runDb_noFault_output db h
  refine ⟨hout, ?_, ?_⟩ <;> rw [hout] <;> by_cases hmt : masterTables db = []
  · rw [if_pos hmt, hmt]
    rfl
  · rw [if_neg hmt,
      countP_flatten_blocks isTableHeader (tableBlock db)
        (tableBlock_countP_header db)]
  · rw [if_pos hmt, hmt]
    rfl
  · rw [if_neg hmt,
      countP_flatten_blocks isColumnsLine (tableBlock db)
        (tableBlock_countP_columns db)]

theorem c5_output_blocks_witness :
    (runDb exDb).faulted = none ∧
    ((runDb exDb).output =
        (if masterTables exDb = [] then [Line.noTables]
          else ((masterTables exDb).map (tableBlock exDb)).flatten) ∧
      (runDb exDb).output.countP isTableHeader = (masterTables exDb).length ∧
      (runDb exDb).output.countP isColumnsLine = (masterTables exDb).length) :=
  ⟨by decide, c5_output_blocks exDb (by decide)⟩

/-- C6: on the example database with one table `t`, columns `a` and `b` and
rows `(1, "x")` and `(2, "y")`, the rendered output is exactly the header,
the line `Columns: ['a', 'b']`, the `Rows:` header and the two row lines
`(1, 'x')` and `(2, 'y')`, in the order the store returned them. -/
theorem c6_example_columns_then_rows :
    (runDb exDb).output.map render =
      ["", "Table: t",
        "Columns: [" ++ sq ++ "a" ++ sq ++ ", " ++ sq ++ "b" ++ sq ++ "]",
        "Rows:",
        "(1, " ++ sq ++ "x" ++ sq ++ ")",
        "(2, " ++ sq ++ "y" ++ sq ++ ")"] := by decide

/-- C7: the run never mutates the store — over any database and any injected
store-layer fault (including none, and including error paths such as a
malformed or missing table), the database state after the run equals the
database state before it: same tables, same schemas, same rows. -/
theorem c7_never_mutates_store (db : Database)
    (f : Option (FaultPoint × Exc)) :
    (run (sqliteStore f) db).2 = db :=
  run_sqlite_snd f db

/-- C9: two successive runs against the same, unmodified database are
identical — the first run leaves the database unchanged, so the second run,
reading the state the first one left, produces the very same result and
the very same rendered output. -/
theorem c9_two_runs_identical (db : Database) :
    run (sqliteStore none) ((run (sqliteStore none) db).2) =
      run (sqliteStore none) db ∧
    (run (sqliteStore none) ((run (sqliteStore none) db).2)).1.output.map
        render =
      (runDb db).output.map render := by
  constructor
  · rw [run_sqlite_snd]
  · rw [run_sqlite_snd]
    rfl

/-- C10: the fault boundary covers only `sqlite3.Error`: whenever an
operation raises an exception of any other type (`Exc.otherExc`, e.g. a
`sqlite3.Warning`), over any store whatsoever, the run ends with that
exception propagating out uncaught — nothing is caught, and no error line is
printed. -/
theorem c10_other_exceptions_propagate {σ : Type} (st : Store σ) (s0 : σ)
    (m : String)
    (h : (run st s0).1.faulted = some (Exc.otherExc m)) :
    (run st s0).1.outcome = Outcome.raised m ∧
    (run st s0).1.caught = none ∧
    (run st s0).1.output.countP isErrorLine = 0 := by
  obtain ⟨L, C, E, hshape, hL⟩ := run_shape st s0
  rw [hshape] at h ⊢
  rw [afterTry_faulted] at h
  subst h
  exact ⟨rfl, rfl, hL⟩

theorem c10_other_exceptions_propagate_witness :
    (run (sqliteStore (some (FaultPoint.atMaster,
        Exc.otherExc "You can only execute one statement at a time"))) exDb).1.faulted =
      some (Exc.otherExc "You can only execute one statement at a time") ∧
    ((run (sqliteStore (some (FaultPoint.atMaster,
        Exc.otherExc "You can only execute one statement at a time"))) exDb).1.outcome =
        Outcome.raised "You can only execute one statement at a time" ∧
      (run (sqliteStore (some (FaultPoint.atMaster,
        Exc.otherExc "You can only execute one statement at a time"))) exDb).1.caught =
        none ∧
      (run (sqliteStore (some (FaultPoint.atMaster,
        Exc.otherExc "You can only execute one statement at a time"))) exDb).1.output.countP
          isErrorLine = 0) :=
  ⟨by decide, c10_other_exceptions_propagate _ _ _ (by decide)⟩

/-- C8: when the store fails with a `sqlite3.Error` at the `SELECT *` of
table `t`, every line printed before the failure is preserved: the full
blocks of the already-processed tables remain in the output, followed by the
failing table's blank line and header (printed before the failing query) and
then the single error line; execution ends normally there, with no retry. -/
theorem c8_prior_output_preserved (db : Database) (ts1 ts2 : List String)
    (t m : String)
    (hm : masterTables db = ts1 ++ t :: ts2)
    (ht : t ∉ ts1)
    (h1 : (processTables (sqliteStore none) ts1 db).2.1 = none) :
    (run (sqliteStore (some (FaultPoint.atSelect t,
        Exc.sqliteError m))) db).1.output =
      (processTables (sqliteStore none) ts1 db).1 ++
        [Line.blank, Line.tableHeader t, Line.errorLine m] ∧
    (run (sqliteStore (some (FaultPoint.atSelect t,
        Exc.sqliteError m))) db).1.outcome = Outcome.normal ∧
    (run (sqliteStore (some (FaultPoint.atSelect t,
        Exc.sqliteError m))) db).1.output.countP isErrorLine = 1 := by
  have hc : (sqliteStore (some (FaultPoint.atSelect t,
      Exc.sqliteError m))).connect db = (Except.ok (), db) := rfl
  have hmq : (sqliteStore (some (FaultPoint.atSelect t,
      Exc.sqliteError m))).masterQuery db =
      (Except.ok (masterTables db), db) := rfl
  obtain ⟨u, us, hus⟩ : ∃ u us, masterTables db = u :: us := by
    rw [hm]
    cases ts1 with
    | nil => exact ⟨t, ts2, rfl⟩
    | cons a as => exact ⟨a, as ++ t :: ts2, rfl⟩
  have hrun : (run (sqliteStore (some (FaultPoint.atSelect t,
      Exc.sqliteError m))) db).1 =
      afterTry (processTables (sqliteStore (some (FaultPoint.atSelect t,
          Exc.sqliteError m))) (masterTables db) db).1 true
        (processTables (sqliteStore (some (FaultPoint.atSelect t,
          Exc.sqliteError m))) (masterTables db) db).2.1 := by
    simp only [run, hc, hmq]
    rw [hus]
  have hagree := processTables_faultSelect_agree t (Exc.sqliteError m) ts1 ht db
  have h1f : (processTables (sqliteStore (some (FaultPoint.atSelect t,
      Exc.sqliteError m))) ts1 db).2.1 = none := by
    rw [hagree]; exact h1
  have hsnd : (processTables (sqliteStore (some (FaultPoint.atSelect t,
      Exc.sqliteError m))) ts1 db).2.2 = db :=
    processTables_sqlite_snd _ ts1 db
  have hselt : (sqliteStore (some (FaultPoint.atSelect t,
      Exc.sqliteError m))).selectAll t db =
      (Except.error (Exc.sqliteError m), db) := by
    show ((if t = t then Except.error (Exc.sqliteError m) else dbSelect db t),
      db) = _
    rw [if_pos rfl]
  have hloop : processTables (sqliteStore (some (FaultPoint.atSelect t,
      Exc.sqliteError m))) (masterTables db) db =
      ((processTables (sqliteStore none) ts1 db).1 ++
          [Line.blank, Line.tableHeader t],
        some (Exc.sqliteError m), db) := by
    rw [hm, processTables_append _ ts1 (t :: ts2) db h1f, hsnd,
      processTables_cons_errSel _ hselt, hagree]
  rw [hrun, hloop]
  refine ⟨?_, rfl, ?_⟩
  · show ((processTables (sqliteStore none) ts1 db).1 ++
        [Line.blank, Line.tableHeader t]) ++ [Line.errorLine m] =
      (processTables (sqliteStore none) ts1 db).1 ++
        [Line.blank, Line.tableHeader t, Line.errorLine m]
    simp
  · show (((processTables (sqliteStore none) ts1 db).1 ++
        [Line.blank, Line.tableHeader t]) ++
          [Line.errorLine m]).countP isErrorLine = 1
    rw [List.countP_append, List.countP_append,
      countP_errorLine_processTables]
    rfl

theorem c8_prior_output_preserved_witness :
    masterTables twoDb = ["aa"] ++ "bb" :: [] ∧
    "bb" ∉ (["aa"] : List String) ∧
    (processTables (sqliteStore none) ["aa"] twoDb).2.1 = none ∧
    ((run (sqliteStore (some (FaultPoint.atSelect "bb",
        Exc.sqliteError "database disk image is malformed"))) twoDb).1.output =
        (processTables (sqliteStore none) ["aa"] twoDb).1 ++
          [Line.blank, Line.tableHeader "bb",
            Line.errorLine "database disk image is malformed"] ∧
      (run (sqliteStore (some (FaultPoint.atSelect "bb",
        Exc.sqliteError "database disk image is malformed"))) twoDb).1.outcome =
        Outcome.normal ∧
      (run (sqliteStore (some (FaultPoint.atSelect "bb",
        Exc.sqliteError "database disk image is malformed"))) twoDb).1.output.countP
          isErrorLine = 1) :=
  ⟨by decide, by decide, by decide,
    c8_prior_output_preserved twoDb ["aa"] [] "bb"
      "database disk image is malformed" (by decide) (by decide) (by decide)⟩

end DBCheck
